import Mathlib

/-!
Verification of the Omlet coop device session and polling manager
(homebridge-omlet-coop).  The definitions below are a shallow embedding of
the JavaScript in src/index.js (platform `OmletCoopPlatform`, accessory
`OmletCoopAccessory`) and src/homebridge-ui/server.js
(`OmletPluginUiServer`).  Network I/O is modelled by passing the outcome of
each HTTP call as an explicit oracle argument; logging and file persistence
(`saveStoredCredentials`) are side effects with no influence on the modelled
state and are omitted.
-/

/-- JavaScript truthiness for an optional string field: `undefined`/`null`
and the empty string are falsy. -/
def strTruthy : Option String → Bool
  | none => false
  | some s => !(s == "")

/-- JavaScript `a || d` for an optional string `a` with a default `d`. -/
def strTruthyD (o : Option String) (d : String) : String :=
  match o with
  | some s => if s == "" then d else s
  | none => d

/- HAP constants `hap.Characteristic.CurrentDoorState` used by the
accessory (OPEN 0, CLOSED 1, OPENING 2, CLOSING 3, STOPPED 4). -/
namespace CurrentDoorState

def OPEN : Nat := 0

def CLOSED : Nat := 1

def OPENING : Nat := 2

def CLOSING : Nat := 3

def STOPPED : Nat := 4

end CurrentDoorState

/- HAP constants `hap.Characteristic.TargetDoorState` (OPEN 0, CLOSED 1). -/
namespace TargetDoorState

def OPEN : Nat := 0

def CLOSED : Nat := 1

end TargetDoorState

/-- The fields of a parsed device-state response that the accessory reads:
`state.door.state`, `state.light.state`, `state.general.batteryLevel`,
`deviceSerial` and `state.general.firmwareVersionCurrent`.  A `none` models
a missing (`undefined`/`null`) field. -/
structure Status where
  doorState : Option String
  lightState : Option String
  batteryLevel : Option Int
  deviceSerial : Option String
  firmwareVersionCurrent : Option String
deriving Repr, DecidableEq

/-- The platform authentication state (`OmletCoopPlatform` fields used by
`handleAuthError` and `login`, src/index.js lines 17-32, 257-278, 458-494). -/
structure Session where
  email : Option String
  password : Option String
  currentToken : Option String
  bearerToken : Option String
  authFailedPermanently : Bool
  reloginAttempts : Nat
deriving Repr, DecidableEq

/-- `this.maxReloginAttempts = 3` (src/index.js line 32). -/
def maxReloginAttempts : Nat := 3

/-- Observable outcome of one `handleAuthError` call: it either throws the
permanent-failure error, or returns a boolean telling the caller whether the
token was refreshed. -/
inductive AuthResult where
  | threw
  | returned (refreshed : Bool)
deriving Repr, DecidableEq

/-- Result of one `handleAuthError` call: updated session, outcome for the
caller, and how many login HTTP requests were issued (0 or 1). -/
structure AuthStep where
  session : Session
  result : AuthResult
  loginCalls : Nat
deriving Repr, DecidableEq

/-- `handleAuthError` (src/index.js lines 458-494).  The `loginRes` oracle is
the outcome of the login HTTP exchange were it attempted: `some tok` when
the API returns a token, `none` on any login failure.  On a successful
re-login the code (via `login`, lines 257-278) stores the token in
`currentToken` and `bearerToken` and resets `reloginAttempts`; on failure it
increments the counter first and latches `authFailedPermanently` once the
counter reaches `maxReloginAttempts`. -/
def handleAuthError (s : Session) (loginRes : Option String) : AuthStep :=
  if s.authFailedPermanently then
    { session := s, result := .threw, loginCalls := 0 }
  else if !(strTruthy s.email) || !(strTruthy s.password) then
    { session := { s with authFailedPermanently := true },
      result := .returned false, loginCalls := 0 }
  else
    let s1 := { s with reloginAttempts := s.reloginAttempts + 1 }
    match loginRes with
    | some tok =>
        { session := { s1 with currentToken := some tok, bearerToken := some tok,
                               reloginAttempts := 0 },
          result := .returned true, loginCalls := 1 }
    | none =>
        if maxReloginAttempts ≤ s1.reloginAttempts then
          { session := { s1 with authFailedPermanently := true },
            result := .returned false, loginCalls := 1 }
        else
          { session := s1, result := .returned false, loginCalls := 1 }

/-- A sequence of `handleAuthError` invocations: final session, the outcome
of every call in order, and the total number of login HTTP requests. -/
structure TraceOut where
  session : Session
  results : List AuthResult
  loginCalls : Nat
deriving Repr, DecidableEq

/-- Run `handleAuthError` over a list of login-outcome oracles. -/
def runAuthErrors : Session → List (Option String) → TraceOut
  | s, [] => { session := s, results := [], loginCalls := 0 }
  | s, o :: os =>
    let st := handleAuthError s o
    let rest := runAuthErrors st.session os
    { session := rest.session, results := st.result :: rest.results,
      loginCalls := st.loginCalls + rest.loginCalls }

/-- The accessory state (`OmletCoopAccessory`, src/index.js lines 524-625)
together with the platform session it acts on.  HomeKit characteristic
values set through `updateValue` are modelled as `...Char` fields (`none`
until first written); `scheduledRefreshDelaysMs` records the pending
one-shot confirmation timers created by `setTimeout`; `pollTimer` is whether
the periodic `setInterval` timer is installed. -/
structure Accessory where
  session : Session
  deviceId : String
  enableLight : Bool
  enableBattery : Bool
  cachedStatus : Option Status
  accessoryInfoUpdated : Bool
  serialChar : String
  firmwareChar : String
  doorCharValue : Option Nat
  targetCharValue : Option Nat
  lightCharValue : Option Bool
  batteryLevelChar : Option Int
  chargingChar : Option Nat
  lowBatteryChar : Option Nat
  scheduledRefreshDelaysMs : List Nat
  pollTimer : Bool
deriving Repr, DecidableEq

/-- Outcome of one `getDeviceStatus` HTTP call (src/index.js lines 794-869):
a parsed 200 response, a non-200 status (the thrown error carries
`statusCode`), a 200 body that fails to parse, or a network error or
timeout (no `statusCode` on the error). -/
inductive ReadOutcome where
  | ok (st : Status)
  | httpError (code : Nat)
  | parseError
  | networkError
deriving Repr, DecidableEq

/-- The `statusCode` property of the error a failed `getDeviceStatus`
rejects with (`none` when the error has no status code). -/
def readAuthCode : ReadOutcome → Option Nat
  | .httpError c => some c
  | _ => none

/-- Message of the error a failed `getDeviceStatus` rejects with. -/
def readErrMsg : ReadOutcome → String
  | .ok _ => ""
  | .httpError c => "HTTP " ++ toString c
  | .parseError => "Failed to parse JSON response"
  | .networkError => "Network error"

/-- Result of one `pollDeviceState` call: updated accessory (and session),
the returned status or thrown error, and the number of login and
device-read HTTP requests issued during the call. -/
structure PollOut where
  acc : Accessory
  result : Except String Status
  loginCalls : Nat
  readCalls : Nat
deriving Repr

/-- The success branch of `pollDeviceState` (src/index.js lines 972-988):
store the status wholesale in `cachedStatus` and, on the first success
only, latch serial and firmware onto the AccessoryInformation service
(`status.deviceSerial || this.deviceId`,
`status.state?.general?.firmwareVersionCurrent` with default 0.0.0). -/
def applyFirstSuccess (acc : Accessory) (st : Status) : Accessory :=
  let acc1 := { acc with cachedStatus := some st }
  if acc1.accessoryInfoUpdated then acc1
  else
    { acc1 with
      serialChar := strTruthyD st.deviceSerial acc1.deviceId,
      firmwareChar := strTruthyD st.firmwareVersionCurrent "0.0.0",
      accessoryInfoUpdated := true }

/-- `pollDeviceState` (src/index.js lines 970-1006).  `first` is the outcome
of the initial `getDeviceStatus` call; on a 401/403 it delegates to
`handleAuthError` (with login oracle `loginRes`) and, only when that
reports a refreshed token, retries `getDeviceStatus` exactly once with
outcome `retry`.  Every failure path rethrows without touching
`cachedStatus`; the retry-success path stores the status but does not
re-latch accessory info (that latch sits only in the first `try` block). -/
def pollDeviceState (acc : Accessory) (first : ReadOutcome) (loginRes : Option String)
    (retry : ReadOutcome) : PollOut :=
  match first with
  | .ok st =>
      { acc := applyFirstSuccess acc st, result := .ok st,
        loginCalls := 0, readCalls := 1 }
  | e =>
      if readAuthCode e == some 401 || readAuthCode e == some 403 then
        let step := handleAuthError acc.session loginRes
        let acc1 := { acc with session := step.session }
        match step.result with
        | .returned true =>
            match retry with
            | .ok st =>
                { acc := { acc1 with cachedStatus := some st }, result := .ok st,
                  loginCalls := step.loginCalls, readCalls := 2 }
            | e2 =>
                { acc := acc1, result := .error (readErrMsg e2),
                  loginCalls := step.loginCalls, readCalls := 2 }
        | .returned false =>
            { acc := acc1, result := .error (readErrMsg e),
              loginCalls := step.loginCalls, readCalls := 1 }
        | .threw =>
            { acc := acc1,
              result := .error "Authentication permanently failed - restart Homebridge after fixing credentials",
              loginCalls := step.loginCalls, readCalls := 1 }
      else
        { acc := acc, result := .error (readErrMsg e), loginCalls := 0, readCalls := 1 }

/-- The `stateMap` lookup with `?? STOPPED` fallback shared by
`getCurrentDoorState` (src/index.js lines 882-889) and `pushStateToHomeKit`
(lines 1016-1023): the five recognized vendor door-state strings map to
their HAP door states and anything else maps to STOPPED. -/
def doorStateMap (s : String) : Nat :=
  if s == "open" then CurrentDoorState.OPEN
  else if s == "closed" then CurrentDoorState.CLOSED
  else if s == "opening" then CurrentDoorState.OPENING
  else if s == "closing" then CurrentDoorState.CLOSING
  else if s == "stopping" then CurrentDoorState.STOPPED
  else CurrentDoorState.STOPPED

/-- The door block of `pushStateToHomeKit` (src/index.js lines 1013-1034):
with a truthy `state.door.state`, push the mapped current state and the
derived target state via `updateValue`; a falsy value is skipped. -/
def pushDoor (acc : Accessory) (st : Status) : Accessory :=
  match st.doorState with
  | some s =>
      if s == "" then acc
      else
        { acc with
          doorCharValue := some (doorStateMap s),
          targetCharValue :=
            some (if s == "open" || s == "opening" then TargetDoorState.OPEN
                  else TargetDoorState.CLOSED) }
  | none => acc

/-- The light block of `pushStateToHomeKit` (src/index.js lines 1036-1046):
runs when the light service exists (exactly when light is enabled) and
`state.light.state !== undefined`. -/
def pushLight (acc : Accessory) (st : Status) : Accessory :=
  if acc.enableLight then
    match st.lightState with
    | some ls => { acc with lightCharValue := some (ls == "on" || ls == "onpending") }
    | none => acc
  else acc

/-- The battery block of `pushStateToHomeKit` (src/index.js lines
1048-1060): runs when the battery service exists (exactly when battery is
enabled) and `state.general.batteryLevel` is present; the low-battery
characteristic is 1 exactly when the level is strictly below 20. -/
def pushBattery (acc : Accessory) (st : Status) : Accessory :=
  if acc.enableBattery then
    match st.batteryLevel with
    | some b =>
        { acc with
          batteryLevelChar := some b,
          chargingChar := some 2,
          lowBatteryChar := some (if b < 20 then 1 else 0) }
    | none => acc
  else acc

/-- `pushStateToHomeKit` (src/index.js lines 1008-1064): push door, light
and battery values from `cachedStatus` to the HomeKit characteristics via
`updateValue`; with no cached snapshot it returns immediately. -/
def pushStateToHomeKit (acc : Accessory) : Accessory :=
  match acc.cachedStatus with
  | none => acc
  | some st => pushBattery (pushLight (pushDoor acc st) st) st

/-- One firing of the polling callback installed by `startPolling`
(src/index.js lines 1073-1098): `await pollDeviceState(); pushStateToHomeKit()`
inside a try/catch that only logs.  The identical body also runs as the
immediate first poll (lines 1074-1081) and as the 15-second confirmation
task scheduled by `setTargetDoorState`/`setLightOn` (lines 928-937,
653-662).  Errors are swallowed, so the cycle is a total state transformer
and the `setInterval` timer is never cleared by a failure. -/
def pollCycle (acc : Accessory) (first : ReadOutcome) (loginRes : Option String)
    (retry : ReadOutcome) : Accessory :=
  let out := pollDeviceState acc first loginRes retry
  match out.result with
  | .ok _ => pushStateToHomeKit out.acc
  | .error _ => out.acc

/-- The oracle inputs consumed by one polling cycle. -/
structure CycleInput where
  first : ReadOutcome
  loginRes : Option String
  retry : ReadOutcome
deriving Repr

/-- The periodic loop installed by `startPolling`: the `setInterval`
callback runs once per tick, each tick wrapped in its own try/catch. -/
def runPollLoop : Accessory → List CycleInput → Accessory
  | acc, [] => acc
  | acc, i :: is => runPollLoop (pollCycle acc i.first i.loginRes i.retry) is

/-- The body of `getCurrentDoorState` after the cold-start cache check
(src/index.js lines 878-889): a missing or falsy `state.door.state` throws,
anything else goes through the `stateMap` lookup with the STOPPED
fallback. -/
def readDoorState (st : Status) : Except String Nat :=
  match st.doorState with
  | none => .error "Invalid API response: missing door state"
  | some s =>
      if s == "" then .error "Invalid API response: missing door state"
      else .ok (doorStateMap s)

/-- `getCurrentDoorState` (src/index.js lines 873-894).  When the cache is
empty (cold start) it first runs `pollDeviceState` with the given oracles;
any error is caught and rethrown as a generic failure.  With a warm cache
no network call happens and the cached snapshot is read. -/
def getCurrentDoorState (acc : Accessory) (first : ReadOutcome)
    (loginRes : Option String) (retry : ReadOutcome) : Accessory × Except String Nat :=
  match acc.cachedStatus with
  | some st =>
      (acc, match readDoorState st with
            | .ok v => .ok v
            | .error _ => .error "Failed to get door state")
  | none =>
      let out := pollDeviceState acc first loginRes retry
      match out.result with
      | .error _ => (out.acc, .error "Failed to get door state")
      | .ok _ =>
          match out.acc.cachedStatus with
          | some st =>
              (out.acc, match readDoorState st with
                        | .ok v => .ok v
                        | .error _ => .error "Failed to get door state")
          | none => (out.acc, .error "Failed to get door state")

/-- The body of `getStatusLowBattery` after the cold-start cache check
(src/index.js lines 712-716): a missing `state.general.batteryLevel`
throws; otherwise the result is 1 exactly when the level is strictly below
20, else 0. -/
def readLowBattery (st : Status) : Except String Nat :=
  match st.batteryLevel with
  | none => .error "Invalid API response: missing battery level"
  | some b => .ok (if b < 20 then 1 else 0)

/-- `getStatusLowBattery` (src/index.js lines 707-721), with the same
cold-start handling as `getCurrentDoorState`. -/
def getStatusLowBattery (acc : Accessory) (first : ReadOutcome)
    (loginRes : Option String) (retry : ReadOutcome) : Accessory × Except String Nat :=
  match acc.cachedStatus with
  | some st =>
      (acc, match readLowBattery st with
            | .ok v => .ok v
            | .error _ => .error "Failed to get low battery status")
  | none =>
      let out := pollDeviceState acc first loginRes retry
      match out.result with
      | .error _ => (out.acc, .error "Failed to get low battery status")
      | .ok _ =>
          match out.acc.cachedStatus with
          | some st =>
              (out.acc, match readLowBattery st with
                        | .ok v => .ok v
                        | .error _ => .error "Failed to get low battery status")
          | none => (out.acc, .error "Failed to get low battery status")

/-- Outcome of one `sendAction` HTTP call (src/index.js lines 723-792):
HTTP 200/204 resolve; any other status rejects with that `statusCode`; a
network error or timeout rejects without one. -/
inductive ActionOutcome where
  | ok
  | httpError (code : Nat)
  | networkError
deriving Repr, DecidableEq

/-- The `statusCode` property of the error a failed `sendAction` rejects
with. -/
def actionAuthCode : ActionOutcome → Option Nat
  | .httpError c => some c
  | _ => none

/-- Result of one `setTargetDoorState` call: updated accessory, whether the
promise resolved, and the number of action and login HTTP requests. -/
structure SetOut where
  acc : Accessory
  resolved : Bool
  actionCalls : Nat
  loginCalls : Nat
deriving Repr

/-- `setTargetDoorState` (src/index.js lines 912-966).  On a successful
`sendAction` it pushes the pending intermediate state (OPENING/CLOSING) to
the CurrentDoorState characteristic via `updateValue` and schedules a
one-shot confirmation re-poll 15000 ms later; `cachedStatus` is not
written.  On a 401/403 it runs `handleAuthError` and, if refreshed, retries
`sendAction` once; the retry-success path pushes the pending state but does
not schedule the confirmation timer. -/
def setTargetDoorState (acc : Accessory) (value : Nat) (first : ActionOutcome)
    (loginRes : Option String) (retry : ActionOutcome) : SetOut :=
  let isOpen := value == TargetDoorState.OPEN
  let pending := if isOpen then CurrentDoorState.OPENING else CurrentDoorState.CLOSING
  match first with
  | .ok =>
      { acc := { acc with
                 doorCharValue := some pending,
                 scheduledRefreshDelaysMs := acc.scheduledRefreshDelaysMs ++ [15000] },
        resolved := true, actionCalls := 1, loginCalls := 0 }
  | e =>
      if actionAuthCode e == some 401 || actionAuthCode e == some 403 then
        let step := handleAuthError acc.session loginRes
        let acc1 := { acc with session := step.session }
        match step.result with
        | .returned true =>
            match retry with
            | .ok =>
                { acc := { acc1 with doorCharValue := some pending },
                  resolved := true, actionCalls := 2, loginCalls := step.loginCalls }
            | _ =>
                { acc := acc1, resolved := false, actionCalls := 2,
                  loginCalls := step.loginCalls }
        | _ =>
            { acc := acc1, resolved := false, actionCalls := 1,
              loginCalls := step.loginCalls }
      else
        { acc := acc, resolved := false, actionCalls := 1, loginCalls := 0 }

/-- `validatePollInterval` (src/index.js lines 57-82), in milliseconds.  The
input models `parseInt(config.pollInterval)`: `none` is an unparsable value
(NaN), `some i` a parsed integer. -/
def validatePollInterval : Option Int → Int
  | none => 30 * 1000
  | some interval =>
      if interval < 30 then 30 * 1000
      else if interval > 300 then 300 * 1000
      else interval * 1000

/-- A device object as it appears inside a list-devices response body. -/
structure RawDevice where
  deviceId : Option String
  name : Option String
  deviceType : Option String
deriving Repr, DecidableEq

/-- A group object from the `/api/v1/group` response body; only its
`devices` array is read. -/
structure RawGroup where
  devices : Option (List RawDevice)
deriving Repr, DecidableEq

/-- A normalized device entry `{deviceId, name, type}` produced by the two
discovery routines. -/
structure Device where
  deviceId : Option String
  name : String
  type : String
deriving Repr, DecidableEq

/-- The per-device mapping of `discoverAllDevices` (src/index.js lines
422-426): `device.deviceId`, `device.name` defaulting to Omlet Device,
`device.deviceType` defaulting to unknown. -/
def platformDevice (d : RawDevice) : Device :=
  { deviceId := d.deviceId,
    name := strTruthyD d.name "Omlet Device",
    type := strTruthyD d.deviceType "unknown" }

/-- The group walk of `discoverAllDevices` (src/index.js lines 419-429):
collect the devices of every group that has a `devices` array, in order. -/
def groupDevices (gs : List RawGroup) : List Device :=
  gs.foldl
    (fun acc g =>
      match g.devices with
      | some ds => acc ++ ds.map platformDevice
      | none => acc) []

/-- A parsed 200-status `/api/v1/group` response body, as inspected by
`discoverAllDevices`: either a bare JSON array, or a JSON object whose
`groups` field (if any) and `data` field (if any) are recorded.  The code
never looks at `data`; the field is carried so that the `\x7bdata: [...]\x7d`
shape is expressible. -/
inductive GroupListResponse where
  | bareArray (groups : List RawGroup)
  | wrappedObject (groupsField : Option (List RawGroup)) (dataField : Option (List RawGroup))
deriving Repr

/-- `discoverAllDevices` (src/index.js lines 382-456), restricted to its
parsing of a 200 response:
`const groups = Array.isArray(json) ? json : (json.groups || []);` followed
by the group walk. -/
def discoverAllDevices : GroupListResponse → List Device
  | .bareArray gs => groupDevices gs
  | .wrappedObject gf _ => groupDevices (gf.getD [])

/-- The per-device mapping of the setup-wizard discovery
(src/homebridge-ui/server.js lines 263-267): `device.deviceId`,
`device.name` defaulting to Unknown Device, `device.deviceType` defaulting to Unknown. -/
def serverDevice (d : RawDevice) : Device :=
  { deviceId := d.deviceId,
    name := strTruthyD d.name "Unknown Device",
    type := strTruthyD d.deviceType "Unknown" }

/-- A parsed 200-status `/api/v1/device` response body as inspected by
`discoverOmletDevices`: a bare array, or an object whose `data` field is an
array or missing. -/
inductive DeviceListResponse where
  | bareArray (devices : List RawDevice)
  | wrappedObject (dataField : Option (List RawDevice))
deriving Repr

/-- `discoverOmletDevices` (src/homebridge-ui/server.js lines 200-304),
restricted to its parsing of a 200 response: a bare array is used directly,
an object with an array `data` field contributes that array, and anything
else rejects. -/
def discoverOmletDevices : DeviceListResponse → Except String (List Device)
  | .bareArray ds => .ok (ds.map serverDevice)
  | .wrappedObject (some ds) => .ok (ds.map serverDevice)
  | .wrappedObject none => .error "No devices array found in response"

/-! Concrete fixtures used by witnesses and counterexamples. -/

/-- A session with configured credentials, fresh counters. -/
def sessionInit : Session :=
  { email := some "user@example.com", password := some "hunter2",
    currentToken := some "tok0", bearerToken := some "tok0",
    authFailedPermanently := false, reloginAttempts := 0 }

/-- A freshly constructed accessory (empty cache, timers installed). -/
def accInit : Accessory :=
  { session := sessionInit, deviceId := "dev1", enableLight := true,
    enableBattery := true, cachedStatus := none, accessoryInfoUpdated := false,
    serialChar := "dev1", firmwareChar := "0.0.0", doorCharValue := none,
    targetCharValue := none, lightCharValue := none, batteryLevelChar := none,
    chargingChar := none, lowBatteryChar := none, scheduledRefreshDelaysMs := [],
    pollTimer := true }

/-- A device-state response reporting a closed door. -/
def stClosed : Status :=
  { doorState := some "closed", lightState := some "off", batteryLevel := some 80,
    deviceSerial := some "SER1", firmwareVersionCurrent := some "1.2.3" }

/-- A device-state response reporting an open door. -/
def stOpen : Status :=
  { doorState := some "open", lightState := some "off", batteryLevel := some 79,
    deviceSerial := some "SER1", firmwareVersionCurrent := some "1.2.3" }

/-- The accessory after a first successful poll of `stClosed`. -/
def accWarm : Accessory :=
  { accInit with
    cachedStatus := some stClosed,
    accessoryInfoUpdated := true,
    serialChar := "SER1",
    firmwareChar := "1.2.3" }

/-- A concrete raw device entry from a list response. -/
def rawCoop : RawDevice :=
  { deviceId := some "abc123", name := some "Coop Door", deviceType := some "autodoor" }

/-- A concrete group holding that one device. -/
def rawGroup1 : RawGroup := { devices := some [rawCoop] }

/-! Field-preservation helper lemmas for the push blocks and the poller. -/

theorem pushDoor_preserves (acc : Accessory) (st : Status) :
    (pushDoor acc st).enableLight = acc.enableLight ∧
    (pushDoor acc st).enableBattery = acc.enableBattery ∧
    (pushDoor acc st).cachedStatus = acc.cachedStatus ∧
    (pushDoor acc st).pollTimer = acc.pollTimer ∧
    (pushDoor acc st).lowBatteryChar = acc.lowBatteryChar := by
  unfold pushDoor
  cases st.doorState with
  | none => exact ⟨rfl, rfl, rfl, rfl, rfl⟩
  | some s =>
      by_cases h : s == ""
      · simp [h]
      · simp [h]

theorem pushLight_preserves (acc : Accessory) (st : Status) :
    (pushLight acc st).enableBattery = acc.enableBattery ∧
    (pushLight acc st).cachedStatus = acc.cachedStatus ∧
    (pushLight acc st).pollTimer = acc.pollTimer ∧
    (pushLight acc st).lowBatteryChar = acc.lowBatteryChar ∧
    (pushLight acc st).doorCharValue = acc.doorCharValue := by
  unfold pushLight
  by_cases h : acc.enableLight
  · cases st.lightState <;> simp [h]
  · simp [h]

theorem pushBattery_preserves (acc : Accessory) (st : Status) :
    (pushBattery acc st).cachedStatus = acc.cachedStatus ∧
    (pushBattery acc st).pollTimer = acc.pollTimer ∧
    (pushBattery acc st).doorCharValue = acc.doorCharValue := by
  unfold pushBattery
  by_cases h : acc.enableBattery
  · cases st.batteryLevel <;> simp [h]
  · simp [h]

theorem pushBattery_low (acc : Accessory) (st : Status) (b : Int)
    (hen : acc.enableBattery = true) (hb : st.batteryLevel = some b) :
    (pushBattery acc st).lowBatteryChar = some (if b < 20 then 1 else 0) := by
  unfold pushBattery
  rw [hen, hb]
  simp

theorem pushDoor_sets (acc : Accessory) (st : Status) (s : String)
    (hs : st.doorState = some s) (hne : (s == "") = false) :
    (pushDoor acc st).doorCharValue = some (doorStateMap s) := by
  unfold pushDoor
  rw [hs]
  simp [hne]

theorem pushState_preserves (acc : Accessory) :
    (pushStateToHomeKit acc).pollTimer = acc.pollTimer ∧
    (pushStateToHomeKit acc).cachedStatus = acc.cachedStatus := by
  unfold pushStateToHomeKit
  cases hc : acc.cachedStatus with
  | none => exact ⟨rfl, hc⟩
  | some st =>
      constructor
      · rw [(pushBattery_preserves _ _).2.1, (pushLight_preserves _ _).2.2.1,
            (pushDoor_preserves _ _).2.2.2.1]
      · rw [(pushBattery_preserves _ _).1, (pushLight_preserves _ _).2.1,
            (pushDoor_preserves _ _).2.2.1, hc]

theorem applyFirstSuccess_fields (acc : Accessory) (st : Status) :
    (applyFirstSuccess acc st).cachedStatus = some st ∧
    (applyFirstSuccess acc st).pollTimer = acc.pollTimer ∧
    (applyFirstSuccess acc st).session = acc.session := by
  unfold applyFirstSuccess
  by_cases h : acc.accessoryInfoUpdated <;> simp [h]

theorem pollDeviceState_pollTimer (acc : Accessory) (first : ReadOutcome)
    (loginRes : Option String) (retry : ReadOutcome) :
    (pollDeviceState acc first loginRes retry).acc.pollTimer = acc.pollTimer := by
  cases first with
  | ok st => exact (applyFirstSuccess_fields acc st).2.1
  | httpError c =>
      unfold pollDeviceState
      dsimp only [readAuthCode]
      by_cases h : ((some c == some 401) || (some c == some 403)) = true
      · rw [if_pos h]
        cases (handleAuthError acc.session loginRes).result with
        | threw => rfl
        | returned b =>
            cases b
            · rfl
            · cases retry <;> rfl
      · rw [if_neg h]
  | parseError => rfl
  | networkError => rfl

theorem pollDeviceState_cache (acc : Accessory) (first : ReadOutcome)
    (loginRes : Option String) (retry : ReadOutcome) :
    (∀ m, (pollDeviceState acc first loginRes retry).result = .error m →
        (pollDeviceState acc first loginRes retry).acc.cachedStatus = acc.cachedStatus) ∧
    (∀ st, (pollDeviceState acc first loginRes retry).result = .ok st →
        (pollDeviceState acc first loginRes retry).acc.cachedStatus = some st) := by
  cases first with
  | ok st =>
      constructor
      · intro m hm
        exact absurd hm (by simp [pollDeviceState])
      · intro st2 h2
        have h3 : st = st2 := by
          simpa [pollDeviceState] using h2
        subst h3
        simpa [pollDeviceState] using (applyFirstSuccess_fields acc st).1
  | httpError c =>
      unfold pollDeviceState
      dsimp only [readAuthCode]
      by_cases h : ((some c == some 401) || (some c == some 403)) = true
      · rw [if_pos h]
        cases (handleAuthError acc.session loginRes).result with
        | threw => exact ⟨fun m _ => rfl, fun st hst => Except.noConfusion hst⟩
        | returned b =>
            cases b with
            | false => exact ⟨fun m _ => rfl, fun st hst => Except.noConfusion hst⟩
            | true =>
                cases retry with
                | ok st =>
                    refine ⟨fun m hm => Except.noConfusion hm, fun st2 h2 => ?_⟩
                    have h3 : st = st2 := by
                      injection h2
                    subst h3
                    rfl
                | httpError c2 => exact ⟨fun m _ => rfl, fun st hst => Except.noConfusion hst⟩
                | parseError => exact ⟨fun m _ => rfl, fun st hst => Except.noConfusion hst⟩
                | networkError => exact ⟨fun m _ => rfl, fun st hst => Except.noConfusion hst⟩
      · rw [if_neg h]
        exact ⟨fun m _ => rfl, fun st hst => Except.noConfusion hst⟩
  | parseError => exact ⟨fun m _ => rfl, fun st hst => Except.noConfusion hst⟩
  | networkError => exact ⟨fun m _ => rfl, fun st hst => Except.noConfusion hst⟩

theorem handleAuthError_perm (s : Session) (o : Option String)
    (h : s.authFailedPermanently = true) :
    handleAuthError s o = { session := s, result := .threw, loginCalls := 0 } := by
  simp [handleAuthError, h]

theorem runAuthErrors_perm (os : List (Option String)) (s : Session)
    (h : s.authFailedPermanently = true) :
    runAuthErrors s os =
      { session := s, results := os.map (fun _ => AuthResult.threw), loginCalls := 0 } := by
  induction os with
  | nil => rfl
  | cons o os ih =>
      simp [runAuthErrors, handleAuthError_perm s o h, ih]

/-- C1: starting from an active session with configured credentials and a
zero counter, three consecutive failed re-login attempts cost exactly three
login requests and latch `authFailedPermanently`; from then on, for every
further sequence of `handleAuthError` calls, the flag stays `true`, no login
request is ever issued again (so no fourth login happens), and every call
throws immediately. -/
theorem C1_permanent_lockout (s0 : Session) (rest : List (Option String))
    (h1 : s0.authFailedPermanently = false) (h2 : s0.reloginAttempts = 0)
    (h3 : strTruthy s0.email = true) (h4 : strTruthy s0.password = true) :
    (runAuthErrors s0 [none, none, none]).session.authFailedPermanently = true ∧
    (runAuthErrors s0 [none, none, none]).loginCalls = 3 ∧
    (runAuthErrors (runAuthErrors s0 [none, none, none]).session rest).session.authFailedPermanently
      = true ∧
    (runAuthErrors (runAuthErrors s0 [none, none, none]).session rest).loginCalls = 0 ∧
    (∀ r ∈ (runAuthErrors (runAuthErrors s0 [none, none, none]).session rest).results,
        r = AuthResult.threw) := by
  have key : (runAuthErrors s0 [none, none, none]).session.authFailedPermanently = true ∧
      (runAuthErrors s0 [none, none, none]).loginCalls = 3 := by
    norm_num [runAuthErrors, handleAuthError, h1, h2, h3, h4, maxReloginAttempts]
  have habs := runAuthErrors_perm rest _ key.1
  refine ⟨key.1, key.2, ?_, ?_, ?_⟩
  · rw [habs]
    exact key.1
  · rw [habs]
  · rw [habs]
    intro r hr
    simp only [List.mem_map] at hr
    obtain ⟨_, _, hq⟩ := hr
    exact hq.symm

/-- Witness for C1 at the concrete fresh session. -/
theorem C1_witness :
    (runAuthErrors sessionInit [none, none, none]).session.authFailedPermanently = true ∧
    (runAuthErrors sessionInit [none, none, none]).loginCalls = 3 ∧
    (runAuthErrors (runAuthErrors sessionInit [none, none, none]).session
        [some "tok2", none]).session.authFailedPermanently = true ∧
    (runAuthErrors (runAuthErrors sessionInit [none, none, none]).session
        [some "tok2", none]).loginCalls = 0 ∧
    (∀ r ∈ (runAuthErrors (runAuthErrors sessionInit [none, none, none]).session
        [some "tok2", none]).results, r = AuthResult.threw) :=
  C1_permanent_lockout sessionInit [some "tok2", none] rfl rfl (by decide) (by decide)

/-- C8: in an active session with credentials and a counter at most 2, a
successful re-login resets `reloginAttempts` to 0 and signals the caller to
retry, while a failed re-login attempt increments the counter by exactly
one. -/
theorem C8_counter_reset (s : Session) (tok : String)
    (hp : s.authFailedPermanently = false) (he : strTruthy s.email = true)
    (hw : strTruthy s.password = true) (_hr : s.reloginAttempts ≤ 2) :
    (handleAuthError s (some tok)).session.reloginAttempts = 0 ∧
    (handleAuthError s (some tok)).result = .returned true ∧
    (handleAuthError s none).session.reloginAttempts = s.reloginAttempts + 1 ∧
    (handleAuthError s none).result = .returned false := by
  refine ⟨?_, ?_, ?_, ?_⟩
  · simp [handleAuthError, hp, he, hw]
  · simp [handleAuthError, hp, he, hw]
  · simp only [handleAuthError, hp, he, hw]
    norm_num
    split <;> rfl
  · simp only [handleAuthError, hp, he, hw]
    norm_num
    split <;> rfl

/-- Witness for C8 at the concrete fresh session. -/
theorem C8_witness :
    sessionInit.reloginAttempts ≤ 2 ∧
    (handleAuthError sessionInit (some "tok9")).session.reloginAttempts = 0 ∧
    (handleAuthError sessionInit (some "tok9")).result = .returned true ∧
    (handleAuthError sessionInit none).session.reloginAttempts
      = sessionInit.reloginAttempts + 1 ∧
    (handleAuthError sessionInit none).result = .returned false := by
  have h := C8_counter_reset sessionInit "tok9" rfl (by decide) (by decide) (by decide)
  exact ⟨by decide, h.1, h.2.1, h.2.2.1, h.2.2.2⟩

/-- C9: in manual-token-only mode (no truthy email or no truthy password),
a 401/403 makes `handleAuthError` latch `authPermanentlyFailed`, report
failure to its caller, and issue no login request at all. -/
theorem C9_token_only_mode (s : Session) (o : Option String)
    (hp : s.authFailedPermanently = false)
    (hcred : strTruthy s.email = false ∨ strTruthy s.password = false) :
    handleAuthError s o =
      { session := { s with authFailedPermanently := true },
        result := .returned false, loginCalls := 0 } := by
  rcases hcred with h | h <;> simp [handleAuthError, hp, h]

/-- Witness for C9 at a concrete token-only session. -/
theorem C9_witness :
    strTruthy (Session.email { sessionInit with email := none }) = false ∧
    handleAuthError { sessionInit with email := none } (some "tokZ") =
      { session := { sessionInit with email := none, authFailedPermanently := true },
        result := .returned false, loginCalls := 0 } :=
  ⟨by decide,
   C9_token_only_mode { sessionInit with email := none } (some "tokZ") rfl (Or.inl (by decide))⟩

theorem handleAuthError_active (s : Session) (loginRes : Option String)
    (hp : s.authFailedPermanently = false) (he : strTruthy s.email = true)
    (hw : strTruthy s.password = true) :
    (handleAuthError s loginRes).loginCalls = 1 ∧
    (handleAuthError s loginRes).result = .returned loginRes.isSome := by
  cases loginRes with
  | some tok => simp [handleAuthError, hp, he, hw]
  | none =>
      simp only [handleAuthError, hp, he, hw]
      norm_num
      split <;> exact ⟨rfl, rfl⟩

/-- C3: when a scheduled refresh gets a 401/403 while credentials are
configured and auth has not permanently failed, `pollDeviceState` issues
exactly one login request; when that login succeeds the device read is
retried exactly once (two reads total in the cycle), when it fails no
retry read happens (one read total); and whenever the cycle ends in an
error, the previously cached snapshot is untouched and keeps being
served. -/
theorem C3_single_recovery (acc : Accessory) (c : Nat) (loginRes : Option String)
    (retry : ReadOutcome)
    (hc : c = 401 ∨ c = 403)
    (he : strTruthy acc.session.email = true)
    (hw : strTruthy acc.session.password = true)
    (hp : acc.session.authFailedPermanently = false) :
    (pollDeviceState acc (.httpError c) loginRes retry).loginCalls = 1 ∧
    (∀ tok, loginRes = some tok →
        (pollDeviceState acc (.httpError c) loginRes retry).readCalls = 2) ∧
    (loginRes = none →
        (pollDeviceState acc (.httpError c) loginRes retry).readCalls = 1 ∧
        (pollDeviceState acc (.httpError c) loginRes retry).acc.cachedStatus
          = acc.cachedStatus) ∧
    (∀ m, (pollDeviceState acc (.httpError c) loginRes retry).result = .error m →
        (pollDeviceState acc (.httpError c) loginRes retry).acc.cachedStatus
          = acc.cachedStatus) := by
  have hcond : ((some c == some 401) || (some c == some 403)) = true := by
    rcases hc with h | h <;> subst h <;> decide
  refine ⟨?_, ?_, ?_, (pollDeviceState_cache acc (.httpError c) loginRes retry).1⟩
  · unfold pollDeviceState
    dsimp only [readAuthCode]
    rw [if_pos hcond]
    cases loginRes with
    | some tok =>
        have h2 : (handleAuthError acc.session (some tok)).result = .returned true := by
          simpa using (handleAuthError_active acc.session (some tok) hp he hw).2
        rw [h2]
        cases retry <;>
          simpa using (handleAuthError_active acc.session (some tok) hp he hw).1
    | none =>
        have h2 : (handleAuthError acc.session none).result = .returned false := by
          simpa using (handleAuthError_active acc.session none hp he hw).2
        rw [h2]
        simpa using (handleAuthError_active acc.session none hp he hw).1
  · intro tok htok
    subst htok
    unfold pollDeviceState
    dsimp only [readAuthCode]
    rw [if_pos hcond]
    have h2 : (handleAuthError acc.session (some tok)).result = .returned true := by
      simpa using (handleAuthError_active acc.session (some tok) hp he hw).2
    rw [h2]
    cases retry <;> rfl
  · intro hnone
    subst hnone
    unfold pollDeviceState
    dsimp only [readAuthCode]
    rw [if_pos hcond]
    have h2 : (handleAuthError acc.session none).result = .returned false := by
      simpa using (handleAuthError_active acc.session none hp he hw).2
    rw [h2]
    exact ⟨rfl, rfl⟩

/-- Witness for C3: a 401 on the warm accessory with a failing re-login. -/
theorem C3_witness :
    (pollDeviceState accWarm (.httpError 401) none .networkError).loginCalls = 1 ∧
    (pollDeviceState accWarm (.httpError 401) none .networkError).readCalls = 1 ∧
    (pollDeviceState accWarm (.httpError 401) none .networkError).acc.cachedStatus
      = accWarm.cachedStatus := by
  have h := C3_single_recovery accWarm 401 none .networkError (Or.inl rfl)
    (by decide) (by decide) rfl
  exact ⟨h.1, (h.2.2.1 rfl).1, (h.2.2.1 rfl).2⟩

theorem pollCycle_pollTimer (acc : Accessory) (f : ReadOutcome) (l : Option String)
    (r : ReadOutcome) :
    (pollCycle acc f l r).pollTimer = acc.pollTimer := by
  unfold pollCycle
  dsimp only
  split
  · rw [(pushState_preserves _).1, pollDeviceState_pollTimer]
  · rw [pollDeviceState_pollTimer]

theorem runPollLoop_pollTimer (ticks : List CycleInput) (acc : Accessory) :
    (runPollLoop acc ticks).pollTimer = acc.pollTimer := by
  induction ticks generalizing acc with
  | nil => rfl
  | cons t ts ih =>
      show (runPollLoop (pollCycle acc t.first t.loginRes t.retry) ts).pollTimer
        = acc.pollTimer
      rw [ih, pollCycle_pollTimer]

/-- C4: a failing refresh leaves `cachedStatus` untouched; the cache is
only ever replaced wholesale by the successfully fetched status; a failing
poll cycle changes nothing beyond the session bookkeeping of the failed
call and never clears the interval timer, which also survives every list
of poll cycles. -/
theorem C4_failure_retention (acc : Accessory) (first : ReadOutcome)
    (loginRes : Option String) (retry : ReadOutcome) (ticks : List CycleInput) :
    (∀ m, (pollDeviceState acc first loginRes retry).result = .error m →
        (pollDeviceState acc first loginRes retry).acc.cachedStatus = acc.cachedStatus) ∧
    (∀ st, (pollDeviceState acc first loginRes retry).result = .ok st →
        (pollDeviceState acc first loginRes retry).acc.cachedStatus = some st) ∧
    (∀ m, (pollDeviceState acc first loginRes retry).result = .error m →
        pollCycle acc first loginRes retry = (pollDeviceState acc first loginRes retry).acc) ∧
    (pollCycle acc first loginRes retry).pollTimer = acc.pollTimer ∧
    (runPollLoop acc ticks).pollTimer = acc.pollTimer := by
  refine ⟨(pollDeviceState_cache acc first loginRes retry).1,
          (pollDeviceState_cache acc first loginRes retry).2, ?_,
          pollCycle_pollTimer acc first loginRes retry,
          runPollLoop_pollTimer ticks acc⟩
  intro m hm
  unfold pollCycle
  dsimp only
  rw [hm]

/-- Witness for C4: a network error on the warm accessory. -/
theorem C4_witness :
    (pollDeviceState accWarm .networkError none .networkError).acc.cachedStatus
      = accWarm.cachedStatus ∧
    (runPollLoop accWarm [⟨.networkError, none, .networkError⟩]).pollTimer
      = accWarm.pollTimer := by
  have h := C4_failure_retention accWarm .networkError none .networkError
    [⟨.networkError, none, .networkError⟩]
  exact ⟨h.1 "Network error" rfl, h.2.2.2.2⟩

/-- C2 counterexample: with a warm cache reporting `closed`, a successful
open command leaves the cached snapshot at `closed`, so the immediately
following `getCurrentDoorState` read returns CLOSED (1) and not the
claimed pending OPENING (2): the optimistic update goes to the HomeKit
characteristic via `updateValue`, never into `cachedStatus`. -/
theorem C2_counterexample :
    (setTargetDoorState accWarm TargetDoorState.OPEN .ok none .ok).acc.cachedStatus
      = some stClosed ∧
    (getCurrentDoorState (setTargetDoorState accWarm TargetDoorState.OPEN .ok none .ok).acc
        .networkError none .networkError).2 = .ok CurrentDoorState.CLOSED ∧
    CurrentDoorState.CLOSED ≠ CurrentDoorState.OPENING := by
  refine ⟨rfl, ?_, by decide⟩
  rfl

/-- C2 (amended): after a successful open command the HomeKit
CurrentDoorState characteristic is immediately set to OPENING through
`updateValue` and a one-shot confirmation refresh is scheduled 15000 ms
later, while the cached snapshot itself is left unchanged; when the
confirmation poll succeeds, its snapshot replaces the cache wholesale and
is pushed to HomeKit, and a device report of `open` is pushed as OPEN. -/
theorem C2_amended_optimistic_push (acc : Accessory) (loginRes : Option String)
    (retry : ActionOutcome) :
    (setTargetDoorState acc TargetDoorState.OPEN .ok loginRes retry).resolved = true ∧
    (setTargetDoorState acc TargetDoorState.OPEN .ok loginRes retry).acc.doorCharValue
      = some CurrentDoorState.OPENING ∧
    (setTargetDoorState acc TargetDoorState.OPEN .ok loginRes retry).acc.cachedStatus
      = acc.cachedStatus ∧
    (setTargetDoorState acc TargetDoorState.OPEN .ok loginRes retry).acc.scheduledRefreshDelaysMs
      = acc.scheduledRefreshDelaysMs ++ [15000] ∧
    (∀ (st : Status) (f : ReadOutcome) (tk : Option String) (r : ReadOutcome),
        (pollDeviceState (setTargetDoorState acc TargetDoorState.OPEN .ok loginRes retry).acc
            f tk r).result = .ok st →
        pollCycle (setTargetDoorState acc TargetDoorState.OPEN .ok loginRes retry).acc f tk r
          = pushStateToHomeKit
              (pollDeviceState (setTargetDoorState acc TargetDoorState.OPEN .ok loginRes retry).acc
                f tk r).acc ∧
        (pollDeviceState (setTargetDoorState acc TargetDoorState.OPEN .ok loginRes retry).acc
            f tk r).acc.cachedStatus = some st ∧
        (st.doorState = some "open" →
          (pollCycle (setTargetDoorState acc TargetDoorState.OPEN .ok loginRes retry).acc
              f tk r).doorCharValue = some CurrentDoorState.OPEN)) := by
  refine ⟨rfl, rfl, rfl, rfl, ?_⟩
  intro st f tk r hok
  have hcycle : pollCycle (setTargetDoorState acc TargetDoorState.OPEN .ok loginRes retry).acc f tk r
      = pushStateToHomeKit
          (pollDeviceState (setTargetDoorState acc TargetDoorState.OPEN .ok loginRes retry).acc
            f tk r).acc := by
    unfold pollCycle
    dsimp only
    rw [hok]
  have hcs := (pollDeviceState_cache
    (setTargetDoorState acc TargetDoorState.OPEN .ok loginRes retry).acc f tk r).2 st hok
  refine ⟨hcycle, hcs, ?_⟩
  intro hopen
  rw [hcycle]
  unfold pushStateToHomeKit
  rw [hcs]
  dsimp only
  rw [(pushBattery_preserves _ _).2.2, (pushLight_preserves _ _).2.2.2.2,
      pushDoor_sets _ st "open" hopen (by decide)]
  decide

/-- Witness for C2 (amended): open command on the warm accessory followed
by a confirmation poll that reports `open`. -/
theorem C2_witness :
    (setTargetDoorState accWarm TargetDoorState.OPEN .ok none .ok).acc.doorCharValue
      = some CurrentDoorState.OPENING ∧
    (pollCycle (setTargetDoorState accWarm TargetDoorState.OPEN .ok none .ok).acc
        (.ok stOpen) none .networkError).doorCharValue = some CurrentDoorState.OPEN := by
  have h := C2_amended_optimistic_push accWarm none .ok
  exact ⟨h.2.1, (h.2.2.2.2 stOpen (.ok stOpen) none .networkError rfl).2.2 rfl⟩

/-- C5: with a warm cache, the five recognized vendor door-state strings
map to their normalized HAP values, any other non-empty string maps to the
STOPPED safe default instead of failing, a missing `door.state` sub-field
is an error rather than a silent default, and `getCurrentDoorState` serves
exactly the mapped value of the cached snapshot. -/
theorem C5_door_state_mapping (acc : Accessory) (st : Status) (s : String)
    (f : ReadOutcome) (tok : Option String) (r : ReadOutcome)
    (hc : acc.cachedStatus = some st) :
    (∀ v, readDoorState st = .ok v →
        getCurrentDoorState acc f tok r = (acc, .ok v)) ∧
    readDoorState { st with doorState := some "open" } = .ok CurrentDoorState.OPEN ∧
    readDoorState { st with doorState := some "closed" } = .ok CurrentDoorState.CLOSED ∧
    readDoorState { st with doorState := some "opening" } = .ok CurrentDoorState.OPENING ∧
    readDoorState { st with doorState := some "closing" } = .ok CurrentDoorState.CLOSING ∧
    readDoorState { st with doorState := some "stopping" } = .ok CurrentDoorState.STOPPED ∧
    (s ≠ "" → s ∉ (["open", "closed", "opening", "closing", "stopping"] : List String) →
        readDoorState { st with doorState := some s } = .ok CurrentDoorState.STOPPED) ∧
    readDoorState { st with doorState := none }
      = .error "Invalid API response: missing door state" := by
  refine ⟨?_, rfl, rfl, rfl, rfl, rfl, ?_, rfl⟩
  · intro v hv
    unfold getCurrentDoorState
    rw [hc]
    dsimp only
    rw [hv]
  · intro hne hmem
    simp only [List.mem_cons, List.mem_singleton, not_or] at hmem
    obtain ⟨h1, h2, h3, h4, h5⟩ := hmem
    simp [readDoorState, doorStateMap, hne, h1, h2, h3, h4, h5, CurrentDoorState.STOPPED]

/-- Witness for C5: the warm accessory and the unrecognized string ajar. -/
theorem C5_witness :
    getCurrentDoorState accWarm .networkError none .networkError
      = (accWarm, .ok CurrentDoorState.CLOSED) ∧
    readDoorState { stClosed with doorState := some "ajar" }
      = .ok CurrentDoorState.STOPPED := by
  have h := C5_door_state_mapping accWarm stClosed "ajar" .networkError none .networkError rfl
  exact ⟨h.1 CurrentDoorState.CLOSED rfl, h.2.2.2.2.2.2.1 (by decide) (by decide)⟩

/-- C10: with a warm cache, the low-battery read returns 1 exactly when the
cached battery level is strictly below 20 and 0 otherwise, errors when the
level is missing instead of defaulting, and the background push applies the
same strict threshold to the StatusLowBattery characteristic. -/
theorem C10_low_battery (acc : Accessory) (st : Status) (b : Int)
    (f : ReadOutcome) (tok : Option String) (r : ReadOutcome)
    (hc : acc.cachedStatus = some st) (hen : acc.enableBattery = true) :
    (∀ v, readLowBattery st = .ok v →
        getStatusLowBattery acc f tok r = (acc, .ok v)) ∧
    (st.batteryLevel = some b →
        readLowBattery st = .ok (if b < 20 then 1 else 0) ∧
        (readLowBattery st = .ok 1 ↔ b < 20)) ∧
    (st.batteryLevel = none →
        readLowBattery st = .error "Invalid API response: missing battery level") ∧
    (st.batteryLevel = some b →
        (pushStateToHomeKit acc).lowBatteryChar = some (if b < 20 then 1 else 0)) := by
  refine ⟨?_, ?_, ?_, ?_⟩
  · intro v hv
    unfold getStatusLowBattery
    rw [hc]
    dsimp only
    rw [hv]
  · intro hb
    constructor
    · simp [readLowBattery, hb]
    · simp only [readLowBattery, hb]
      by_cases hlt : b < 20
      · simp [hlt]
      · simp [hlt]
  · intro hb
    simp [readLowBattery, hb]
  · intro hb
    unfold pushStateToHomeKit
    rw [hc]
    dsimp only
    have hen2 : (pushLight (pushDoor acc st) st).enableBattery = true := by
      rw [(pushLight_preserves _ _).1, (pushDoor_preserves _ _).2.1, hen]
    exact pushBattery_low _ st b hen2 hb

/-- Witness for C10: the warm accessory with an 80 percent battery. -/
theorem C10_witness :
    getStatusLowBattery accWarm .networkError none .networkError = (accWarm, .ok 0) ∧
    (pushStateToHomeKit accWarm).lowBatteryChar = some 0 := by
  have h := C10_low_battery accWarm stClosed 80 .networkError none .networkError rfl rfl
  refine ⟨h.1 0 rfl, ?_⟩
  have h2 := h.2.2.2 rfl
  norm_num at h2
  exact h2

/-- C7: the configured poll interval is clamped into the 30 s to 300 s
bounds, in milliseconds: 5 clamps up to 30000, 10000 clamps down to
300000, an in-range value is used as-is scaled to milliseconds, an
unparsable value falls back to the 30-second default, and every result
lies within the bounds. -/
theorem C7_poll_interval_clamped (i : Int) (h1 : 30 ≤ i) (h2 : i ≤ 300) :
    validatePollInterval (some 5) = 30 * 1000 ∧
    validatePollInterval (some 10000) = 300 * 1000 ∧
    validatePollInterval (some i) = i * 1000 ∧
    validatePollInterval none = 30 * 1000 ∧
    (∀ v, 30 * 1000 ≤ validatePollInterval v ∧ validatePollInterval v ≤ 300 * 1000) := by
  refine ⟨by norm_num [validatePollInterval], by norm_num [validatePollInterval], ?_, rfl, ?_⟩
  · simp only [validatePollInterval]
    rw [if_neg (by omega), if_neg (by omega)]
  · intro v
    cases v with
    | none => norm_num [validatePollInterval]
    | some j =>
        simp only [validatePollInterval]
        split
        · norm_num
        · split
          · norm_num
          · constructor <;> omega

/-- Witness for C7 at the in-range value 60. -/
theorem C7_witness :
    ((30 : Int) ≤ 60 ∧ (60 : Int) ≤ 300) ∧ validatePollInterval (some 60) = 60 * 1000 :=
  ⟨⟨by norm_num, by norm_num⟩,
   (C7_poll_interval_clamped 60 (by norm_num) (by norm_num)).2.2.1⟩

/-- C6 counterexample: `discoverAllDevices` does not accept the data
wrapper: the same groups array that yields one device when sent bare
yields no devices when delivered inside an object whose only array field
is `data` (the platform code consults only a `groups` field on objects),
so the two shapes do not produce the same device sequence. -/
theorem C6_counterexample :
    discoverAllDevices (.bareArray [rawGroup1]) = [platformDevice rawCoop] ∧
    discoverAllDevices (.wrappedObject none (some [rawGroup1])) = [] ∧
    [platformDevice rawCoop] ≠ ([] : List Device) :=
  ⟨rfl, rfl, by decide⟩

/-- C6 (amended): each discovery routine accepts a bare array and its own
wrapped object shape with identical results: the setup-wizard discovery
accepts a bare device array or an object carrying the array in a `data`
field, while the platform discovery accepts a bare group array or an
object carrying it in a `groups` field, and yields the empty device list
for an object without a `groups` field, such as a data-wrapped one. -/
theorem C6_amended_response_shapes (ds : List RawDevice) (gs : List RawGroup)
    (x : Option (List RawGroup)) :
    discoverOmletDevices (.bareArray ds) = .ok (ds.map serverDevice) ∧
    discoverOmletDevices (.wrappedObject (some ds)) = .ok (ds.map serverDevice) ∧
    discoverAllDevices (.bareArray gs) = groupDevices gs ∧
    discoverAllDevices (.wrappedObject (some gs) x) = groupDevices gs ∧
    discoverAllDevices (.wrappedObject none x) = [] :=
  ⟨rfl, rfl, rfl, rfl, rfl⟩
